import Mathlib

/-!
Shallow embedding of the Cyberorganism terminal plugin client
(`src/plugin/index.js`): the terminal sidebar, the `/health` probe, the
websocket stream at `/terminal`, its event handlers, and the 5-second
reconnect timer.  The client is a single cooperative event loop; we model
it as an explicit state (the module-level mutable variables plus the
observable effects: screen writes, sent frames, pending timers, console
errors) together with a `step` function over environment events.  `step`
returns `none` for an event that cannot occur in the given state (e.g. an
`onmessage` callback for a websocket that is not OPEN).
-/

namespace Cyberorganism

/-- The `readyState` values of a browser `WebSocket`; the code compares
against `WebSocket.OPEN`. -/
inductive ReadyState
  | CONNECTING
  | OPEN
  | CLOSING
  | CLOSED
deriving DecidableEq

/-- Client→server frames: `JSON.stringify` of an input object
(`type:"input"` with the data verbatim) or a resize object
(`type:"resize"` with cols and rows). -/
inductive Frame
  | input (data : String)
  | resize (cols rows : Nat)
deriving DecidableEq

/-- Outcome of `JSON.parse` on an incoming websocket message: either a
parsed object, recorded by its `type` field (possibly absent) and its
`data` payload, or a parse failure carrying the raw `event.data`. -/
inductive Rx
  | parsed (mtype : Option String) (mdata : String)
  | malformed (raw : String)
deriving DecidableEq

/-- The client's module-level mutable state plus its observable effects.

* `sidebar`: `none` while `terminalSidebar` has not been created;
  `some true` when it exists with `display` ≠ `none` (visible, i.e. the
  terminal is open), `some false` when hidden.  `fitAddon` and `terminal`
  exist exactly when `sidebar ≠ none`.
* `socket`: the `websocket` variable — `none` before the first
  `connectWebSocket`, otherwise the current socket's `readyState`.
* `screen`: the chunks rendered to the terminal since the last
  `terminal.clear()`, in order.
* `sent`: every frame passed to `websocket.send`, in order.
* `cols`, `rows`: the terminal grid size maintained by `fitAddon.fit()`.
* `timers`: delays (ms) of the pending reconnect `setTimeout`s.
* `probing`: a `fetch` of `/health` is in flight.
* `errlog`: messages passed to `console.error`. -/
structure ClientState where
  sidebar : Option Bool
  socket : Option ReadyState
  screen : List String
  sent : List Frame
  cols : Nat
  rows : Nat
  timers : List Nat
  probing : Bool
  errlog : List String
deriving DecidableEq

/-- `terminal.writeln line`: renders the line followed by CRLF. -/
def writeln (s : ClientState) (line : String) : ClientState :=
  { s with screen := s.screen ++ [line ++ "\r\n"] }

/-- `terminal.write data`: renders the data exactly as given. -/
def write (s : ClientState) (data : String) : ClientState :=
  { s with screen := s.screen ++ [data] }

/-- `websocket.send (JSON.stringify f)`. -/
def send (s : ClientState) (f : Frame) : ClientState :=
  { s with sent := s.sent ++ [f] }

/-- The `terminal.onData` handler installed by `openTerminal`: forward the
event's data as one input frame when the websocket exists and is OPEN;
otherwise do nothing at all. -/
def onData (s : ClientState) (data : String) : ClientState :=
  if s.socket = some ReadyState.OPEN then send s (Frame.input data) else s

/-- Body shared by the `window` resize listener and the delayed fit calls:
when `fitAddon` exists, `fitAddon.fit()` recomputes the grid (the new size
`c × r` is chosen by the layout) and, when the websocket is OPEN, a resize
frame with the new size is sent. -/
def onWindowResize (s : ClientState) (c r : Nat) : ClientState :=
  if s.sidebar = none then s
  else
    let s1 := { s with cols := c, rows := r }
    if s1.socket = some ReadyState.OPEN then send s1 (Frame.resize c r) else s1

/-- `connectToBackend`: issues `fetch(BACKEND_URL + "/health")`; the
response is handled later by `onHealthResult`. -/
def connectToBackend (s : ClientState) : ClientState :=
  { s with probing := true }

/-- `connectWebSocket`: `websocket = new WebSocket("ws://127.0.0.1:3030/terminal")`. -/
def connectWebSocket (s : ClientState) : ClientState :=
  { s with socket := some ReadyState.CONNECTING }

/-- `response.ok`: HTTP status in 200..299; a rejected fetch (transport
error, modelled as `none`) is never ok. -/
def healthOk : Option Nat → Bool
  | some status => 200 ≤ status && status ≤ 299
  | none => false

/-- Diagnostic written when `/health` answers with a non-2xx status. -/
def healthFailLine1 : String := "\r\n\x1b[31mBackend server is not running.\x1b[0m"

/-- Diagnostic written when the `/health` fetch itself fails. -/
def transportFailLine1 : String := "\r\n\x1b[31mCannot connect to backend server.\x1b[0m"

/-- Second diagnostic line, shared by both failure branches. -/
def failLine2 : String := "\x1b[33mPlease start the backend server with:\x1b[0m"

/-- Third diagnostic line, shared by both failure branches. -/
def failLine3 : String := "\x1b[1;34mcd /home/brandt/projects/cyberorganism && cargo run --bin server\x1b[0m\r\n"

/-- Resolution of the `/health` fetch started by `connectToBackend`:
on a 2xx response connect the websocket; on any other status write the
"not running" diagnostic; on a transport error log it and write the
"cannot connect" diagnostic.  No branch retries. -/
def onHealthResult (s : ClientState) (res : Option Nat) : ClientState :=
  match res with
  | some status =>
      if 200 ≤ status && status ≤ 299 then
        connectWebSocket s
      else
        writeln (writeln (writeln s healthFailLine1) failLine2) failLine3
  | none =>
      writeln (writeln (writeln
        { s with errlog := s.errlog ++ ["Error connecting to backend:"] }
        transportFailLine1) failLine2) failLine3

/-- First welcome banner line written by `websocket.onopen`. -/
def welcome1 : String := "\r\n\x1b[1;32mCyberorganism Terminal\x1b[0m"

/-- Second welcome banner line written by `websocket.onopen`. -/
def welcome2 : String := "\x1b[90mConnected to backend server\x1b[0m\r\n"

/-- `websocket.onopen`: send the terminal size, then `terminal.clear()`,
then write the welcome banner. -/
def onOpen (s : ClientState) : ClientState :=
  let s1 := send s (Frame.resize s.cols s.rows)
  let s2 := { s1 with screen := [] }
  writeln (writeln s2 welcome1) welcome2

/-- `websocket.onmessage`: parse the event data; write output payloads
verbatim; write a formatted line for error frames; ignore every other
parsed message; on a parse failure log the error and write the raw
event data to the terminal. -/
def onMessage (s : ClientState) (rx : Rx) : ClientState :=
  match rx with
  | Rx.parsed mtype mdata =>
      if mtype = some "output" then
        write s mdata
      else if mtype = some "error" then
        writeln s ("\r\n\x1b[31mError: " ++ mdata ++ "\x1b[0m\r\n")
      else s
  | Rx.malformed raw =>
      write { s with errlog := s.errlog ++ ["Error parsing WebSocket message:"] } raw

/-- The delay passed to the reconnect `setTimeout` in `websocket.onclose`. -/
def reconnectDelayMs : Nat := 5000

/-- `websocket.onclose`: write the disconnect notice and schedule one
reconnect timer with the fixed delay. -/
def onClose (s : ClientState) : ClientState :=
  let s1 := writeln s "\r\n\x1b[31mDisconnected from backend server.\x1b[0m\r\n"
  { s1 with timers := s1.timers ++ [reconnectDelayMs] }

/-- `websocket.onerror`: log and write a notice; nothing else. -/
def onError (s : ClientState) : ClientState :=
  writeln { s with errlog := s.errlog ++ ["WebSocket error:"] }
    "\r\n\x1b[31mWebSocket error. Reconnecting...\x1b[0m\r\n"

/-- Body of the reconnect timer: reconnect only if the terminal sidebar
still exists and is not hidden. -/
def onReconnectTimer (s : ClientState) : ClientState :=
  if s.sidebar = some true then connectToBackend s else s

/-- `openTerminal`: on first call create the sidebar, terminal and
`fitAddon`, fit (the initial grid `c × r` is chosen by the layout), call
`connectToBackend` and install the handlers; in every case make the
sidebar visible.  (The trailing delayed fit it schedules is modelled by
the `fitFire` event.) -/
def openTerminal (s : ClientState) (c r : Nat) : ClientState :=
  if s.sidebar = none then
    connectToBackend { s with sidebar := some true, cols := c, rows := r }
  else
    { s with sidebar := some true }

/-- `toggleTerminal`: create-and-open on first use, otherwise flip the
sidebar's visibility.  It touches nothing but the sidebar. -/
def toggleTerminal (s : ClientState) (c r : Nat) : ClientState :=
  if s.sidebar = none then openTerminal s c r
  else if s.sidebar = some false then { s with sidebar := some true }
  else { s with sidebar := some false }

/-- Environment events driving the client's event loop. -/
inductive Event
  | toggle (c r : Nat)
  | slashCmd (c r : Nat)
  | fitFire (c r : Nat)
  | termData (data : String)
  | winResize (c r : Nat)
  | healthResult (res : Option Nat)
  | wsOpen
  | wsMessage (rx : Rx)
  | wsClose
  | wsError
  | reconnectFire
deriving DecidableEq

/-- A websocket that can still fire `onopen`/`onmessage`/`onclose`. -/
def liveSocket (s : ClientState) : Bool :=
  s.socket = some ReadyState.CONNECTING || s.socket = some ReadyState.OPEN

/-- One step of the client event loop.  `none` means the event cannot
occur in this state: callbacks only fire for a live socket, a fetch only
resolves while one is in flight, a timer only fires while pending. -/
def step (s : ClientState) : Event → Option ClientState
  | Event.toggle c r => some (toggleTerminal s c r)
  | Event.slashCmd c r => some (openTerminal s c r)
  | Event.fitFire c r => some (onWindowResize s c r)
  | Event.termData data => some (onData s data)
  | Event.winResize c r => some (onWindowResize s c r)
  | Event.healthResult res =>
      if s.probing then some (onHealthResult { s with probing := false } res) else none
  | Event.wsOpen =>
      if s.socket = some ReadyState.CONNECTING then
        some (onOpen { s with socket := some ReadyState.OPEN })
      else none
  | Event.wsMessage rx =>
      if s.socket = some ReadyState.OPEN then some (onMessage s rx) else none
  | Event.wsClose =>
      if liveSocket s then some (onClose { s with socket := some ReadyState.CLOSED })
      else none
  | Event.wsError =>
      if liveSocket s then some (onError s) else none
  | Event.reconnectFire =>
      match s.timers with
      | [] => none
      | _ :: rest => some (onReconnectTimer { s with timers := rest })

/-- The state right after the module loads. -/
def initState : ClientState :=
  { sidebar := none, socket := none, screen := [], sent := [],
    cols := 0, rows := 0, timers := [], probing := false, errlog := [] }

/-- Run a sequence of events; fails if any event is impossible. -/
def run (s : ClientState) : List Event → Option ClientState
  | [] => some s
  | e :: es =>
      match step s e with
      | some s1 => run s1 es
      | none => none

/-- States the client can actually be in. -/
def Reachable (s : ClientState) : Prop := ∃ es, run initState es = some s

/-- The client is probing or holds a live socket. -/
def connActive (s : ClientState) : Bool := s.probing || liveSocket s

/-- Inductive invariant of the event loop: before the sidebar exists
nothing has started; a pending reconnect timer excludes a probe in flight
and a live socket; at most one reconnect timer is pending; a probe in
flight excludes a live socket; the code never calls `websocket.close()`,
so CLOSING never occurs. -/
def Inv (s : ClientState) : Prop :=
  (s.sidebar = none → s.socket = none ∧ s.probing = false ∧ s.timers = []) ∧
  (connActive s = true → s.timers = []) ∧
  s.timers.length ≤ 1 ∧
  (s.probing = true → s.socket = none ∨ s.socket = some ReadyState.CLOSED) ∧
  s.socket ≠ some ReadyState.CLOSING

/-- State after `toggleTerminal` first opens the terminal at 80×24:
the `/health` probe is in flight. -/
def sProbing : ClientState :=
  { sidebar := some true, socket := none, screen := [], sent := [],
    cols := 80, rows := 24, timers := [], probing := true, errlog := [] }

/-- State after the probe answered 200: the websocket is connecting. -/
def sConnecting : ClientState :=
  { sProbing with probing := false, socket := some ReadyState.CONNECTING }

/-- State after `websocket.onopen` ran: connected, banner on screen,
initial resize frame sent. -/
def sConnected : ClientState :=
  { sidebar := some true, socket := some ReadyState.OPEN,
    screen := [welcome1 ++ "\r\n", welcome2 ++ "\r\n"],
    sent := [Frame.resize 80 24], cols := 80, rows := 24,
    timers := [], probing := false, errlog := [] }

/-- State after the server closed the stream: disconnect notice shown,
one reconnect timer pending. -/
def sClosed : ClientState :=
  { sConnected with
      socket := some ReadyState.CLOSED,
      screen := sConnected.screen ++
        ["\r\n\x1b[31mDisconnected from backend server.\x1b[0m\r\n" ++ "\r\n"],
      timers := [reconnectDelayMs] }

/-- A connecting state whose terminal still shows content from before. -/
def sDirty : ClientState :=
  { sidebar := some true, socket := some ReadyState.CONNECTING,
    screen := ["old session output", "stale diagnostic"], sent := [],
    cols := 80, rows := 24, timers := [], probing := false, errlog := [] }

/-- Screen lines appended by a failed health probe (non-2xx status when
`res = some status`, transport error when `res = none`). -/
def healthFailScreen (res : Option Nat) : List String :=
  match res with
  | some _ => [healthFailLine1 ++ "\r\n", failLine2 ++ "\r\n", failLine3 ++ "\r\n"]
  | none => [transportFailLine1 ++ "\r\n", failLine2 ++ "\r\n", failLine3 ++ "\r\n"]

theorem inv_init : Inv initState := by
  simp [Inv, initState, connActive, liveSocket]

theorem inv_congr {s t : ClientState} (hI : Inv s)
    (hsb : t.sidebar = s.sidebar) (hsock : t.socket = s.socket)
    (htim : t.timers = s.timers) (hpro : t.probing = s.probing) : Inv t := by
  unfold Inv connActive liveSocket at *
  rw [hsb, hsock, htim, hpro]
  exact hI

theorem inv_sidebar {s t : ClientState} (hI : Inv s)
    (hsb : t.sidebar ≠ none) (hsock : t.socket = s.socket)
    (htim : t.timers = s.timers) (hpro : t.probing = s.probing) : Inv t := by
  obtain ⟨hJ, hAT, hLen, hL, hC⟩ := hI
  unfold Inv connActive liveSocket at *
  rw [hsock, htim, hpro]
  exact ⟨fun hn => absurd hn hsb, hAT, hLen, hL, hC⟩

theorem inv_step {s s' : ClientState} (hI : Inv s) {e : Event}
    (h : step s e = some s') : Inv s' := by
  obtain ⟨hJ, hAT, hLen, hL, hC⟩ := hI
  cases e with
  | toggle c r =>
      simp only [step, Option.some.injEq] at h
      subst h
      unfold toggleTerminal
      split
      · next hn =>
          obtain ⟨h1, h2, h3⟩ := hJ hn
          simp [openTerminal, connectToBackend, hn, Inv, connActive, liveSocket, h1, h2, h3]
      · split
        · exact inv_sidebar ⟨hJ, hAT, hLen, hL, hC⟩ (by simp) rfl rfl rfl
        · exact inv_sidebar ⟨hJ, hAT, hLen, hL, hC⟩ (by simp) rfl rfl rfl
  | slashCmd c r =>
      simp only [step, Option.some.injEq] at h
      subst h
      unfold openTerminal
      split
      · next hn =>
          obtain ⟨h1, h2, h3⟩ := hJ hn
          simp [connectToBackend, Inv, connActive, liveSocket, h1, h2, h3]
      · exact inv_sidebar ⟨hJ, hAT, hLen, hL, hC⟩ (by simp) rfl rfl rfl
  | fitFire c r =>
      simp only [step, Option.some.injEq] at h
      subst h
      unfold onWindowResize
      split
      · exact ⟨hJ, hAT, hLen, hL, hC⟩
      · dsimp only
        split
        · exact inv_congr ⟨hJ, hAT, hLen, hL, hC⟩ rfl rfl rfl rfl
        · exact inv_congr ⟨hJ, hAT, hLen, hL, hC⟩ rfl rfl rfl rfl
  | winResize c r =>
      simp only [step, Option.some.injEq] at h
      subst h
      unfold onWindowResize
      split
      · exact ⟨hJ, hAT, hLen, hL, hC⟩
      · dsimp only
        split
        · exact inv_congr ⟨hJ, hAT, hLen, hL, hC⟩ rfl rfl rfl rfl
        · exact inv_congr ⟨hJ, hAT, hLen, hL, hC⟩ rfl rfl rfl rfl
  | termData d =>
      simp only [step, Option.some.injEq] at h
      subst h
      unfold onData
      split
      · exact inv_congr ⟨hJ, hAT, hLen, hL, hC⟩ rfl rfl rfl rfl
      · exact ⟨hJ, hAT, hLen, hL, hC⟩
  | healthResult res =>
      simp only [step] at h
      split at h
      case isFalse => exact absurd h (by simp)
      case isTrue hp =>
          simp only [Option.some.injEq] at h
          subst h
          have hca : connActive s = true := by
            unfold connActive
            rw [hp]
            exact Bool.true_or _
          have htm0 : s.timers = [] := hAT hca
          have hsb : s.sidebar ≠ none := fun hn => by
            have := (hJ hn).2.1
            rw [this] at hp
            exact Bool.noConfusion hp
          have hsc : s.socket = none ∨ s.socket = some ReadyState.CLOSED := hL hp
          unfold onHealthResult
          cases res with
          | some status =>
              dsimp only
              split
              · refine ⟨fun hn => absurd hn (by simpa [connectWebSocket] using hsb),
                  ?_, ?_, ?_, ?_⟩
                · simp [connectWebSocket, htm0]
                · simp [connectWebSocket, htm0]
                · simp [connectWebSocket]
                · simp [connectWebSocket]
              · refine ⟨fun hn => absurd hn (by simpa [writeln] using hsb),
                  ?_, ?_, ?_, ?_⟩
                · simp [writeln, htm0]
                · simp [writeln, htm0]
                · simp [writeln]
                · simpa [writeln] using hC
          | none =>
              refine ⟨fun hn => absurd hn (by simpa [writeln] using hsb),
                ?_, ?_, ?_, ?_⟩
              · simp [writeln, htm0]
              · simp [writeln, htm0]
              · simp [writeln]
              · simpa [writeln] using hC
  | wsOpen =>
      simp only [step] at h
      split at h
      case isFalse => exact absurd h (by simp)
      case isTrue hconn =>
          simp only [Option.some.injEq] at h
          subst h
          have hp : s.probing = false := by
            cases hpb : s.probing
            · rfl
            · rcases hL hpb with hx | hx <;> rw [hconn] at hx <;>
                exact absurd hx (by simp)
          have hlive : liveSocket s = true := by
            unfold liveSocket
            rw [hconn]
            simp
          have hca : connActive s = true := by
            unfold connActive
            rw [hlive]
            exact Bool.or_true _
          have htm0 : s.timers = [] := hAT hca
          have hsb : s.sidebar ≠ none := fun hn => by
            have := (hJ hn).1
            rw [this] at hconn
            exact Option.noConfusion hconn
          refine ⟨fun hn => absurd hn (by simpa [onOpen, send, writeln] using hsb),
            ?_, ?_, ?_, ?_⟩
          · simp [onOpen, send, writeln, htm0]
          · simp [onOpen, send, writeln, htm0]
          · simp [onOpen, send, writeln, hp]
          · simp [onOpen, send, writeln]
  | wsMessage rx =>
      simp only [step] at h
      split at h
      case isFalse => exact absurd h (by simp)
      case isTrue hop =>
          simp only [Option.some.injEq] at h
          subst h
          unfold onMessage
          cases rx with
          | parsed mtype mdata =>
              dsimp only
              split
              · exact inv_congr ⟨hJ, hAT, hLen, hL, hC⟩ rfl rfl rfl rfl
              · split
                · exact inv_congr ⟨hJ, hAT, hLen, hL, hC⟩ rfl rfl rfl rfl
                · exact ⟨hJ, hAT, hLen, hL, hC⟩
          | malformed raw =>
              exact inv_congr ⟨hJ, hAT, hLen, hL, hC⟩ rfl rfl rfl rfl
  | wsClose =>
      simp only [step] at h
      split at h
      case isFalse => exact absurd h (by simp)
      case isTrue hlive =>
          simp only [Option.some.injEq] at h
          subst h
          have hsc : s.socket = some ReadyState.CONNECTING ∨
              s.socket = some ReadyState.OPEN := by
            unfold liveSocket at hlive
            rcases hx : s.socket with _ | st
            · rw [hx] at hlive; simp at hlive
            · cases st with
              | CONNECTING => exact Or.inl rfl
              | OPEN => exact Or.inr rfl
              | CLOSING => exact absurd hx hC
              | CLOSED => rw [hx] at hlive; simp at hlive
          have hp : s.probing = false := by
            cases hpb : s.probing
            · rfl
            · rcases hL hpb with hx | hx <;> rcases hsc with hy | hy <;>
                rw [hy] at hx <;> exact absurd hx (by simp)
          have hca : connActive s = true := by
            unfold connActive
            rw [hlive]
            exact Bool.or_true _
          have htm0 : s.timers = [] := hAT hca
          have hsb : s.sidebar ≠ none := fun hn => by
            have := (hJ hn).1
            rcases hsc with hy | hy <;> rw [this] at hy <;> exact Option.noConfusion hy
          refine ⟨fun hn => absurd hn (by simpa [onClose, writeln] using hsb),
            ?_, ?_, ?_, ?_⟩
          · intro hact
            unfold connActive liveSocket at hact
            simp [onClose, writeln, hp] at hact
          · simp [onClose, writeln, htm0]
          · simp [onClose, writeln, hp]
          · simp [onClose, writeln]
  | wsError =>
      simp only [step] at h
      split at h
      case isFalse => exact absurd h (by simp)
      case isTrue hlive =>
          simp only [Option.some.injEq] at h
          subst h
          exact inv_congr ⟨hJ, hAT, hLen, hL, hC⟩ rfl rfl rfl rfl
  | reconnectFire =>
      simp only [step] at h
      rcases htm : s.timers with _ | ⟨t0, rest⟩
      · rw [htm] at h
        exact absurd h (by simp)
      · rw [htm] at h
        simp only [Option.some.injEq] at h
        subst h
        have hact : connActive s = false := by
          cases hca : connActive s
          · rfl
          · rw [hAT hca] at htm
            exact absurd htm (by simp)
        have hp : s.probing = false := by
          unfold connActive at hact
          cases hpb : s.probing
          · rfl
          · rw [hpb] at hact
            simp at hact
        have hnl : liveSocket s = false := by
          unfold connActive at hact
          cases hlb : liveSocket s
          · rfl
          · rw [hlb] at hact
            simp at hact
        have hrest : rest = [] := by
          rw [htm] at hLen
          simp only [List.length_cons] at hLen
          have : rest.length = 0 := by omega
          exact List.length_eq_zero.mp this
        have hsc : s.socket = none ∨ s.socket = some ReadyState.CLOSED := by
          unfold liveSocket at hnl
          rcases hx : s.socket with _ | st
          · exact Or.inl rfl
          · cases st with
            | CONNECTING => rw [hx] at hnl; simp at hnl
            | OPEN => rw [hx] at hnl; simp at hnl
            | CLOSING => exact absurd hx hC
            | CLOSED => exact Or.inr rfl
        subst hrest
        unfold onReconnectTimer
        split
        · next hvis =>
            refine ⟨fun hn => ?_, ?_, ?_, ?_, ?_⟩
            · exfalso
              rw [hvis] at hn
              simp [connectToBackend] at hn
            · simp [connectToBackend]
            · simp [connectToBackend]
            · intro _
              simpa [connectToBackend] using hsc
            · simpa [connectToBackend] using hC
        · refine ⟨fun hn => ?_, ?_, ?_, ?_, ?_⟩
          · exfalso
            have := (hJ (by simpa using hn)).2.2
            rw [htm] at this
            exact absurd this (by simp)
          · intro _
            rfl
          · simp
          · intro hb
            simp only at hb
            rw [hp] at hb
            exact absurd hb (by simp)
          · simpa using hC

theorem run_inv : ∀ (es : List Event) (s s' : ClientState),
    Inv s → run s es = some s' → Inv s' := by
  intro es
  induction es with
  | nil =>
      intro s s' hI h
      simp only [run, Option.some.injEq] at h
      exact h ▸ hI
  | cons e es ih =>
      intro s s' hI h
      simp only [run] at h
      rcases hx : step s e with _ | s1
      · rw [hx] at h; exact absurd h (by simp)
      · rw [hx] at h
        exact ih s1 s' (inv_step hI hx) h

theorem reach_inv {s : ClientState} (h : Reachable s) : Inv s := by
  obtain ⟨es, hr⟩ := h
  exact run_inv es initState s inv_init hr

/-- Claim C1: while the websocket is OPEN, a UI input event is sent as exactly
one Input frame, verbatim and appended in arrival order, with no other
state change; while not OPEN, the event leaves the state completely
unchanged — nothing is sent and nothing is buffered — so any later run is
identical to one in which the event never happened: the dropped input is
never delivered, even after a subsequent connection. -/
theorem claim_C1 (s : ClientState) (data : String) :
    (s.socket = some ReadyState.OPEN →
      step s (Event.termData data)
        = some { s with sent := s.sent ++ [Frame.input data] }) ∧
    (s.socket ≠ some ReadyState.OPEN →
      step s (Event.termData data) = some s ∧
      ∀ es, run s (Event.termData data :: es) = run s es) := by
  constructor
  · intro h
    simp [step, onData, send, h]
  · intro h
    have hs : step s (Event.termData data) = some s := by
      simp [step, onData, h]
    exact ⟨hs, fun es => by simp [run, hs]⟩

theorem claim_C1_witness :
    step sConnected (Event.termData "ls\n")
      = some { sConnected with sent := sConnected.sent ++ [Frame.input "ls\n"] } ∧
    step sProbing (Event.termData "ls\n") = some sProbing :=
  ⟨(claim_C1 sConnected "ls\n").1 rfl,
   ((claim_C1 sProbing "ls\n").2 (by simp [sProbing])).1⟩

/-- Claim C2: on every transition into Connected (`websocket.onopen`) the
client sends a Resize frame with the current viewport, and at that point
the screen holds only the welcome banner — no Output frame can even be
delivered before the socket is OPEN, since `step` refuses `wsMessage`
otherwise; while Connected, a viewport recomputation sends a Resize frame
with the new size; while not Connected it sends nothing and is a defined
no-op on the sent frames. -/
theorem claim_C2 (s : ClientState) (c r : Nat) (rx : Rx) :
    (s.socket = some ReadyState.CONNECTING →
      ∃ s', step s Event.wsOpen = some s' ∧
        s'.sent = s.sent ++ [Frame.resize s.cols s.rows] ∧
        s'.screen = [welcome1 ++ "\r\n", welcome2 ++ "\r\n"]) ∧
    (s.socket ≠ some ReadyState.OPEN → step s (Event.wsMessage rx) = none) ∧
    (s.sidebar ≠ none → s.socket = some ReadyState.OPEN →
      step s (Event.winResize c r)
        = some { s with cols := c, rows := r,
                        sent := s.sent ++ [Frame.resize c r] }) ∧
    (s.socket ≠ some ReadyState.OPEN →
      ∃ s', step s (Event.winResize c r) = some s' ∧ s'.sent = s.sent) := by
  refine ⟨?_, ?_, ?_, ?_⟩
  · intro h
    refine ⟨onOpen { s with socket := some ReadyState.OPEN }, by simp [step, h], ?_, ?_⟩
    · simp [onOpen, send, writeln]
    · simp [onOpen, send, writeln]
  · intro h
    simp [step, h]
  · intro hsb h
    simp [step, onWindowResize, hsb, h, send]
  · intro h
    refine ⟨onWindowResize s c r, by simp [step], ?_⟩
    unfold onWindowResize
    split
    · rfl
    · dsimp only
      split
      · next hx => exact absurd hx h
      · rfl

theorem claim_C2_witness :
    (∃ s', step sConnecting Event.wsOpen = some s' ∧
        s'.sent = sConnecting.sent ++ [Frame.resize sConnecting.cols sConnecting.rows] ∧
        s'.screen = [welcome1 ++ "\r\n", welcome2 ++ "\r\n"]) ∧
    step sProbing (Event.wsMessage (Rx.parsed (some "output") "hi")) = none ∧
    step sConnected (Event.winResize 100 30)
      = some { sConnected with
          cols := 100, rows := 30,
          sent := sConnected.sent ++ [Frame.resize 100 30] } ∧
    (∃ s', step sProbing (Event.winResize 100 30) = some s' ∧
        s'.sent = sProbing.sent) :=
  ⟨(claim_C2 sConnecting 0 0 (Rx.parsed none "")).1 rfl,
   (claim_C2 sProbing 0 0 (Rx.parsed (some "output") "hi")).2.1 (by simp [sProbing]),
   (claim_C2 sConnected 100 30 (Rx.parsed none "")).2.2.1 (by simp [sConnected]) rfl,
   (claim_C2 sProbing 100 30 (Rx.parsed none "")).2.2.2 (by simp [sProbing])⟩

/-- Claim C3: when a health probe resolves, the stream open (websocket
creation) happens iff the response status is 2xx; on any non-2xx status
or transport error the socket is untouched (zero connection attempts),
the three-line user-visible diagnostic is written to the terminal, and
the prober performs no retry (timers unchanged, probe not restarted). -/
theorem claim_C3 (s : ClientState) (res : Option Nat) (hs : Reachable s)
    (hp : s.probing = true) :
    ∃ s', step s (Event.healthResult res) = some s' ∧
      (s'.socket = some ReadyState.CONNECTING ↔ healthOk res = true) ∧
      (healthOk res = false →
        s'.socket = s.socket ∧ s'.screen = s.screen ++ healthFailScreen res ∧
        s'.timers = s.timers ∧ s'.probing = false ∧ s'.sent = s.sent) ∧
      (healthOk res = true →
        s' = connectWebSocket { s with probing := false }) := by
  have hI := reach_inv hs
  have hsc : s.socket = none ∨ s.socket = some ReadyState.CLOSED :=
    hI.2.2.2.1 hp
  have hnc : s.socket ≠ some ReadyState.CONNECTING := by
    rcases hsc with hy | hy <;> rw [hy] <;> simp
  refine ⟨onHealthResult { s with probing := false } res,
    by simp [step, hp], ?_, ?_, ?_⟩
  · cases res with
    | none =>
        have hx : (onHealthResult { s with probing := false } none).socket
            = s.socket := by
          simp [onHealthResult, writeln]
        exact iff_of_false (fun hc => hnc (hx.symm.trans hc)) (by simp [healthOk])
    | some status =>
        cases hok : healthOk (some status) with
        | false =>
            have hnot : ¬(200 ≤ status ∧ status ≤ 299) := by
              intro hand
              have hT : healthOk (some status) = true := by
                simp [healthOk, hand.1, hand.2]
              rw [hT] at hok
              exact Bool.noConfusion hok
            have hx : (onHealthResult { s with probing := false } (some status)).socket
                = s.socket := by
              simp [onHealthResult, writeln, hnot]
            exact iff_of_false (fun hc => hnc (hx.symm.trans hc)) (by simp)
        | true =>
            have hyes : 200 ≤ status ∧ status ≤ 299 := by
              simpa [healthOk] using hok
            refine iff_of_true ?_ rfl
            simp [onHealthResult, connectWebSocket, hyes.1, hyes.2]
  · intro hf
    cases res with
    | none =>
        refine ⟨?_, ?_, ?_, ?_, ?_⟩ <;>
          simp [onHealthResult, writeln, healthFailScreen]
    | some status =>
        have hnot : ¬(200 ≤ status ∧ status ≤ 299) := by
          intro hand
          have hT : healthOk (some status) = true := by
            simp [healthOk, hand.1, hand.2]
          rw [hT] at hf
          exact Bool.noConfusion hf
        refine ⟨?_, ?_, ?_, ?_, ?_⟩ <;>
          simp [onHealthResult, writeln, healthFailScreen, hnot]
  · intro ht
    cases res with
    | none => exact absurd ht (by simp [healthOk])
    | some status =>
        have hyes : 200 ≤ status ∧ status ≤ 299 := by
          simpa [healthOk] using ht
        simp [onHealthResult, hyes.1, hyes.2]

theorem claim_C3_witness :
    ∃ s', step sProbing (Event.healthResult (some 503)) = some s' ∧
      (s'.socket = some ReadyState.CONNECTING ↔ healthOk (some 503) = true) ∧
      (healthOk (some 503) = false →
        s'.socket = sProbing.socket ∧
        s'.screen = sProbing.screen ++ healthFailScreen (some 503) ∧
        s'.timers = sProbing.timers ∧ s'.probing = false ∧
        s'.sent = sProbing.sent) ∧
      (healthOk (some 503) = true →
        s' = connectWebSocket { sProbing with probing := false }) :=
  claim_C3 sProbing (some 503) ⟨[Event.toggle 80 24], rfl⟩ rfl

/-- Claim C4: on every stream close of a live socket exactly one reconnect
timer with the fixed 5000 ms delay is appended; in every reachable state
at most one reconnect timer is pending; when the timer fires the client
re-enters Probing iff the terminal sidebar is still visible, and makes no
probe or connection attempt when it is not. -/
theorem claim_C4 (s : ClientState) (hs : Reachable s) :
    reconnectDelayMs = 5000 ∧
    s.timers.length ≤ 1 ∧
    (liveSocket s = true →
      ∃ s', step s Event.wsClose = some s' ∧
        s'.timers = s.timers ++ [reconnectDelayMs]) ∧
    (∀ rest, s.timers = reconnectDelayMs :: rest →
      (s.sidebar = some true →
        step s Event.reconnectFire
          = some { s with timers := rest, probing := true }) ∧
      (s.sidebar ≠ some true →
        step s Event.reconnectFire = some { s with timers := rest })) := by
  have hI := reach_inv hs
  refine ⟨rfl, hI.2.2.1, ?_, ?_⟩
  · intro hl
    refine ⟨onClose { s with socket := some ReadyState.CLOSED },
      by simp [step, hl], ?_⟩
    simp [onClose, writeln]
  · intro rest htm
    constructor
    · intro hv
      simp [step, htm, onReconnectTimer, hv, connectToBackend]
    · intro hv
      simp [step, htm, onReconnectTimer, hv]

theorem claim_C4_witness :
    sClosed.timers.length ≤ 1 ∧
    step sClosed Event.reconnectFire
      = some { sClosed with timers := [], probing := true } := by
  have h := claim_C4 sClosed ⟨[Event.toggle 80 24, Event.healthResult (some 200),
    Event.wsOpen, Event.wsClose], rfl⟩
  exact ⟨h.2.1, (h.2.2.2 [] rfl).1 rfl⟩

/-- Claim C5 counterexample: the only explicit user close (toggling the
sidebar away) does not tear down live resources.  After connect and user
close the websocket is still OPEN; after a stream close and user close the
reconnect timer is still pending. -/
theorem claim_C5_counterexample :
    run initState [Event.toggle 80 24, Event.healthResult (some 200),
        Event.wsOpen, Event.toggle 80 24]
      = some { sConnected with sidebar := some false } ∧
    ({ sConnected with sidebar := some false } : ClientState).socket
      = some ReadyState.OPEN ∧
    run initState [Event.toggle 80 24, Event.healthResult (some 200),
        Event.wsOpen, Event.wsClose, Event.toggle 80 24]
      = some { sClosed with sidebar := some false } ∧
    ({ sClosed with sidebar := some false } : ClientState).timers
      = [reconnectDelayMs] :=
  ⟨rfl, rfl, rfl, rfl⟩

/-- Claim C5 (amended): an explicit user close only hides the sidebar; the
socket and any pending reconnect timer are left untouched, but when that
timer fires while the terminal is hidden it makes no probe or connection
attempt — it only expires. -/
theorem claim_C5 (s : ClientState) (c r : Nat) (h : s.sidebar = some true) :
    step s (Event.toggle c r) = some { s with sidebar := some false } ∧
    (∀ rest, s.timers = reconnectDelayMs :: rest →
      step { s with sidebar := some false } Event.reconnectFire
        = some { s with sidebar := some false, timers := rest }) := by
  constructor
  · simp [step, toggleTerminal, h]
  · intro rest htm
    simp [step, htm, onReconnectTimer]

theorem claim_C5_witness :
    step sClosed (Event.toggle 80 24) = some { sClosed with sidebar := some false } ∧
    step { sClosed with sidebar := some false } Event.reconnectFire
      = some { sClosed with sidebar := some false, timers := [] } :=
  ⟨(claim_C5 sClosed 80 24 rfl).1, (claim_C5 sClosed 80 24 rfl).2 [] rfl⟩

/-- Claim C6 counterexample: a frame that fails decode is not dropped —
its raw payload is written to the terminal by the catch handler, so after
receiving the unparseable frame the payload appears on screen. -/
theorem claim_C6_counterexample :
    run initState [Event.toggle 80 24, Event.healthResult (some 200),
        Event.wsOpen, Event.wsMessage (Rx.malformed "not json")]
      = some { sConnected with
          screen := sConnected.screen ++ ["not json"],
          errlog := ["Error parsing WebSocket message:"] } ∧
    ({ sConnected with
        screen := sConnected.screen ++ ["not json"],
        errlog := ["Error parsing WebSocket message:"] } : ClientState).screen
      = [welcome1 ++ "\r\n", welcome2 ++ "\r\n", "not json"] :=
  ⟨rfl, rfl⟩

/-- Claim C6 (amended): for a frame that fails decode the client logs a
console error and writes the raw payload verbatim to the terminal; the
stream stays open (socket still OPEN), nothing is sent, and no reconnect
is scheduled. -/
theorem claim_C6 (s : ClientState) (raw : String)
    (h : s.socket = some ReadyState.OPEN) :
    ∃ s', step s (Event.wsMessage (Rx.malformed raw)) = some s' ∧
      s'.screen = s.screen ++ [raw] ∧
      s'.errlog = s.errlog ++ ["Error parsing WebSocket message:"] ∧
      s'.socket = some ReadyState.OPEN ∧ s'.sent = s.sent ∧
      s'.timers = s.timers := by
  refine ⟨onMessage s (Rx.malformed raw), by simp [step, h], ?_, ?_, ?_, ?_, ?_⟩ <;>
    simp [onMessage, write, h]

theorem claim_C6_witness :
    ∃ s', step sConnected (Event.wsMessage (Rx.malformed "oops")) = some s' ∧
      s'.screen = sConnected.screen ++ ["oops"] ∧
      s'.errlog = sConnected.errlog ++ ["Error parsing WebSocket message:"] ∧
      s'.socket = some ReadyState.OPEN ∧ s'.sent = sConnected.sent ∧
      s'.timers = sConnected.timers :=
  claim_C6 sConnected "oops" rfl

/-- Claim C7: an Output frame received while Connected is written to the
terminal exactly as received — the rendered chunk is the payload itself,
byte-identical, and nothing else in the state changes. -/
theorem claim_C7 (s : ClientState) (d : String)
    (h : s.socket = some ReadyState.OPEN) :
    step s (Event.wsMessage (Rx.parsed (some "output") d))
      = some { s with screen := s.screen ++ [d] } := by
  simp [step, h, onMessage, write]

theorem claim_C7_witness :
    step sConnected (Event.wsMessage (Rx.parsed (some "output") "\x1b[2J\x07hi\r\n"))
      = some { sConnected with
          screen := sConnected.screen ++ ["\x1b[2J\x07hi\r\n"] } :=
  claim_C7 sConnected "\x1b[2J\x07hi\r\n" rfl

/-- Claim C8 counterexample: receiving an error frame while Connected does
not make the client enter Reconnecting — after the frame the socket is
still OPEN, no reconnect timer is pending and no probe is in flight; only
an error line was rendered. -/
theorem claim_C8_counterexample :
    run initState [Event.toggle 80 24, Event.healthResult (some 200),
        Event.wsOpen, Event.wsMessage (Rx.parsed (some "error") "session ended")]
      = some { sConnected with
          screen := sConnected.screen ++
            ["\r\n\x1b[31mError: " ++ "session ended" ++ "\x1b[0m\r\n" ++ "\r\n"] } ∧
    ({ sConnected with
        screen := sConnected.screen ++
          ["\r\n\x1b[31mError: " ++ "session ended" ++ "\x1b[0m\r\n" ++ "\r\n"] }
      : ClientState).socket = some ReadyState.OPEN ∧
    ({ sConnected with
        screen := sConnected.screen ++
          ["\r\n\x1b[31mError: " ++ "session ended" ++ "\x1b[0m\r\n" ++ "\r\n"] }
      : ClientState).timers = [] :=
  ⟨rfl, rfl, rfl⟩

/-- Claim C8 (amended): receiving an error frame while Connected only
renders the error text; the connection state is unchanged, and the client
schedules a reconnect only when the stream itself closes. -/
theorem claim_C8 (s : ClientState) (t : String)
    (h : s.socket = some ReadyState.OPEN) :
    step s (Event.wsMessage (Rx.parsed (some "error") t))
      = some { s with screen := s.screen ++
          ["\r\n\x1b[31mError: " ++ t ++ "\x1b[0m\r\n" ++ "\r\n"] } ∧
    (∃ s', step s Event.wsClose = some s' ∧
      s'.timers = s.timers ++ [reconnectDelayMs]) := by
  constructor
  · simp [step, h, onMessage, writeln]
  · have hl : liveSocket s = true := by simp [liveSocket, h]
    exact ⟨onClose { s with socket := some ReadyState.CLOSED },
      by simp [step, hl], by simp [onClose, writeln]⟩

theorem claim_C8_witness :
    step sConnected (Event.wsMessage (Rx.parsed (some "error") "boom"))
      = some { sConnected with screen := sConnected.screen ++
          ["\r\n\x1b[31mError: " ++ "boom" ++ "\x1b[0m\r\n" ++ "\r\n"] } ∧
    (∃ s', step sConnected Event.wsClose = some s' ∧
      s'.timers = sConnected.timers ++ [reconnectDelayMs]) :=
  claim_C8 sConnected "boom" rfl

/-- Claim C9: on every successful stream open the handler sends the
resize frame, clears the terminal and writes the welcome banner: right
after it runs the screen holds exactly the banner — whatever was rendered
before (prior-session output, diagnostics) is gone — and no Output frame
can have been rendered yet since the socket only now became OPEN. -/
theorem claim_C9 (s : ClientState) (h : s.socket = some ReadyState.CONNECTING) :
    ∃ s', step s Event.wsOpen = some s' ∧
      s'.screen = [welcome1 ++ "\r\n", welcome2 ++ "\r\n"] ∧
      s'.socket = some ReadyState.OPEN ∧
      s'.sent = s.sent ++ [Frame.resize s.cols s.rows] := by
  refine ⟨onOpen { s with socket := some ReadyState.OPEN },
    by simp [step, h], ?_, ?_, ?_⟩ <;> simp [onOpen, send, writeln]

theorem claim_C9_witness :
    ∃ s', step sDirty Event.wsOpen = some s' ∧
      s'.screen = [welcome1 ++ "\r\n", welcome2 ++ "\r\n"] ∧
      s'.socket = some ReadyState.OPEN ∧
      s'.sent = sDirty.sent ++ [Frame.resize sDirty.cols sDirty.rows] :=
  claim_C9 sDirty rfl

/-- Claim C10: a successfully parsed frame whose type is neither
"output" nor "error" — including "input", "resize", a missing type or any
unknown type — leaves the state exactly unchanged: nothing rendered,
nothing logged, nothing sent, connection untouched. -/
theorem claim_C10 (s : ClientState) (mtype : Option String) (d : String)
    (h : s.socket = some ReadyState.OPEN)
    (h1 : mtype ≠ some "output") (h2 : mtype ≠ some "error") :
    step s (Event.wsMessage (Rx.parsed mtype d)) = some s := by
  simp [step, h, onMessage, h1, h2]

theorem claim_C10_witness :
    step sConnected (Event.wsMessage (Rx.parsed (some "input") "x")) = some sConnected ∧
    step sConnected (Event.wsMessage (Rx.parsed none "x")) = some sConnected :=
  ⟨claim_C10 sConnected (some "input") "x" rfl (by decide) (by decide),
   claim_C10 sConnected none "x" rfl (by simp) (by simp)⟩

end Cyberorganism
